import Mathlib

/-!
Verification of the voice-session bridge in `src/backend2/index.js`.

The embedding models the server-side state touched by the bridge (the user,
appointment, email, medical-history and call tables, the per-identifier
attempt counters, and the process-wide `globalUser` variable), the
`/process-password` route, and the `/media-stream` WebSocket handlers
(Twilio-side `connection.on('message')`, the OpenAI-side
`openAiWs.on('open')` / `openAiWs.on('message')` callbacks, and
`connection.on('close')`).

JavaScript particulars preserved by the model:
- `x || d` on strings yields `d` when `x` is `undefined` or the empty
  string (`jsOr`);
- a `try { ... } catch` block that only logs is modelled by an inner
  function returning `Except String _` and an outer wrapper that maps
  `Except.error` to "state unchanged, nothing sent";
- dereferencing a property of `undefined`/`null` is modelled as an
  `Except.error` on the paths where the source can raise
  (`result.message` for an unknown tool name, `globalUser.id` in the
  close handler, `JSON.parse(response.arguments)` on malformed args).

Database rows are modelled as lists; `calls` is kept newest-first so that
`ORDER BY date DESC LIMIT 1` is `head?`, and `medical_history` is kept
date-descending.  The `thread: Date.now()` field of tool results is
omitted: the dispatcher only ever reads `result.message`.
-/

namespace Backend2

/-- A row of the `users` table (schema from `populate-db.js`). -/
structure User where
  id : Nat
  user_id : String
  password : String
  phone_number : String
  name : String
  date_of_birth : String
  allergies : String
  conditions : String
  medications : String
  last_visit : String
deriving DecidableEq, Repr

/-- A row of the `appointments` table. -/
structure Appointment where
  user_id : Nat
  doctor : String
  date : String
  reason : String
  status : String
deriving DecidableEq, Repr

/-- A row of the `emails` table. -/
structure EmailRecord where
  user_id : Nat
  doctor : String
  subject : String
  content : String
  status : String
deriving DecidableEq, Repr

/-- A row of the `calls` table (`date` column left implicit: the list is
kept newest-first, matching `ORDER BY date DESC`). -/
structure CallRecord where
  user_id : Nat
  transcript : String
deriving DecidableEq, Repr

/-- A row of the `medical_history` table. -/
structure HistoryRow where
  user_id : Nat
  date : String
  type : String
  description : String
  doctor : String
deriving DecidableEq, Repr

/-- The server-side state read and written by `index.js`: the database
tables, the two per-identifier attempt-counter objects
(`userIdAttempts`, `loginAttempts`, both defaulting to 0 for unseen
keys), and the process-wide `globalUser` variable. -/
structure ServerState where
  users : List User
  medical_history : List HistoryRow
  appointments : List Appointment
  emails : List EmailRecord
  calls : List CallRecord
  userIdAttempts : String → Nat
  loginAttempts : String → Nat
  globalUser : Option User

/-- Point update of an attempt-counter object. -/
def setCount (m : String → Nat) (k : String) (v : Nat) : String → Nat :=
  fun x => if x = k then v else m x

/-- `verifyUser`: `SELECT * FROM users WHERE user_id = ? AND password = ?`. -/
def verifyUser (users : List User) (userId password : String) : Option User :=
  users.find? fun u => u.user_id == userId && u.password == password

/-- JavaScript `x || d` for an optional string: `undefined` and `""` are
falsy, any other string is kept. -/
def jsOr (x : Option String) (d : String) : String :=
  match x with
  | some s => if s = "" then d else s
  | none => d

/-- JavaScript `String.prototype.trim` whitespace test (the characters
that occur in this code base's inputs). -/
def isJsWhitespace (c : Char) : Bool :=
  c = ' ' || c = '\t' || c = '\n' || c = '\r'

/-- JavaScript `String.prototype.trim`. -/
def jsTrim (s : String) : String :=
  String.mk (((s.data.dropWhile isJsWhitespace).reverse.dropWhile isJsWhitespace).reverse)

/-- Escaping applied by `JSON.stringify` to string values. -/
def jsonEscape (s : String) : String :=
  String.mk ((s.data.map fun c =>
    if c = '\\' then ['\\', '\\']
    else if c = '"' then ['\\', '"']
    else if c = '\n' then ['\\', 'n']
    else [c]).flatten)

/-- A JSON string literal. -/
def jsonStr (s : String) : String := "\"" ++ jsonEscape s ++ "\""

/-- `JSON.stringify` of the `patient` object built by `getMedicalHistory`
(field order is object-literal insertion order). -/
def patientJson (u : User) : String :=
  "\x7b\"name\":" ++ jsonStr u.name ++ ",\"dob\":" ++ jsonStr u.date_of_birth ++
    ",\"allergies\":" ++ jsonStr u.allergies ++ ",\"conditions\":" ++ jsonStr u.conditions ++
    ",\"medications\":" ++ jsonStr u.medications ++ ",\"lastVisit\":" ++ jsonStr u.last_visit ++
    "\x7d"

/-- `JSON.stringify` of one `medical_history` row. -/
def historyRowJson (h : HistoryRow) : String :=
  "\x7b\"user_id\":" ++ toString h.user_id ++ ",\"date\":" ++ jsonStr h.date ++
    ",\"type\":" ++ jsonStr h.type ++ ",\"description\":" ++ jsonStr h.description ++
    ",\"doctor\":" ++ jsonStr h.doctor ++ "\x7d"

/-- `getMedicalHistory` (message field only): "Patient not found in our
records." when no profile is bound, otherwise the serialized patient
summary plus the profile's history rows (kept most-recent-first). -/
def getMedicalHistory (s : ServerState) : String :=
  match s.globalUser with
  | none => "Patient not found in our records."
  | some u =>
      let history := s.medical_history.filter fun h => h.user_id == u.id
      "\x7b\"patient\":" ++ patientJson u ++ ",\"history\":[" ++
        String.intercalate "," (history.map historyRowJson) ++ "]\x7d"

/-- `scheduleAppointment(doctor, date, reason)`: with no bound profile,
returns the not-found message and writes nothing; otherwise inserts one
`appointments` row with status `scheduled` and returns the confirmation
message built by the template literal. -/
def scheduleAppointment (s : ServerState) (doctor date reason : String) :
    ServerState × String :=
  match s.globalUser with
  | none => (s, "Patient not found in our records.")
  | some u =>
      ({ s with appointments :=
          s.appointments ++ [Appointment.mk u.id doctor date reason "scheduled"] },
       "Appointment scheduled with " ++ doctor ++ " on " ++ date ++ " for " ++ reason ++ ".")

/-- `sendDoctorEmail(doctor, subject, content)`: with no bound profile,
returns the not-found message; otherwise inserts one `emails` row with
status `pending` and returns the confirmation message. -/
def sendDoctorEmail (s : ServerState) (doctor subject content : String) :
    ServerState × String :=
  match s.globalUser with
  | none => (s, "Patient not found in our records.")
  | some u =>
      ({ s with emails :=
          s.emails ++ [EmailRecord.mk u.id doctor subject content "pending"] },
       "Message sent to Dr. " ++ doctor ++ ". They will respond to your inquiry soon.")

/-- `saveTranscript(userId, transcript)`: inserts one `calls` row
(newest-first, matching `datetime("now")` ordering). -/
def saveTranscript (s : ServerState) (userId : Nat) (transcript : String) : ServerState :=
  { s with calls := CallRecord.mk userId transcript :: s.calls }

/-- `getLastCallInfo` (firstMessage field): reads `globalUser` and the
most recent `calls` row for that profile. -/
def getLastCallInfo (s : ServerState) : String :=
  match s.globalUser with
  | none =>
      "Welcome to City Medical Center. I don't seem to have your records. How can I assist you today?"
  | some u =>
      let lastCall := (s.calls.filter fun c => c.user_id == u.id).head?
      let lastVisitSummary :=
        match lastCall with
        | some c =>
            "I see your last call summary: \"" ++ c.transcript ++ "\". How can I assist you today?"
        | none =>
            "I see your last visit was on " ++ u.last_visit ++ ". How can I assist you today?"
      "Welcome back " ++ u.name ++ ". " ++ lastVisitSummary

/-- The TwiML responses the `/process-password` route can produce:
connect the media stream (with the spoken text and the two custom
`<Parameter>` values), hang up, or gather the password again. -/
inductive TwimlResponse where
  | connectStream (say firstMessage callerNumber : String)
  | hangup
  | retry (userId : String)
deriving DecidableEq, Repr

/-- The `/process-password` route: increments `loginAttempts[userId]`,
verifies the pair, and on success resets the counter, sets `globalUser`
and connects the stream; on failure hangs up and resets once the counter
reaches 3, and otherwise re-gathers. -/
def processPassword (s : ServerState) (userId password : String) :
    ServerState × TwimlResponse :=
  let n := s.loginAttempts userId + 1
  let s1 := { s with loginAttempts := setCount s.loginAttempts userId n }
  match verifyUser s1.users userId password with
  | some user =>
      let s2 := { s1 with loginAttempts := setCount s1.loginAttempts userId 0,
                          globalUser := some user }
      let firstMessage := getLastCallInfo s2
      (s2, TwimlResponse.connectStream ("Login successful. " ++ firstMessage)
            firstMessage user.phone_number)
  | none =>
      if n ≥ 3 then
        ({ s1 with loginAttempts := setCount s1.loginAttempts userId 0 },
         TwimlResponse.hangup)
      else
        (s1, TwimlResponse.retry userId)

/-! ## The `/media-stream` WebSocket handler -/

/-- `openAiWs.readyState` (the `ws` library's WebSocket state constants). -/
inductive ReadyState where
  | CONNECTING
  | OPEN
  | CLOSING
  | CLOSED
deriving DecidableEq, Repr

/-- The `customParameters` object of a Twilio `start` event; each field
may be absent (`undefined`). -/
structure CustomParameters where
  callerNumber : Option String
  firstMessage : Option String
deriving DecidableEq, Repr

/-- A parsed frame from the Twilio media stream: `start`, `media`
(carrying the base64 audio payload), or any other `event` value (the
handler ignores those). -/
inductive TwilioEvent where
  | start (streamSid callSid : String) (customParameters : Option CustomParameters)
  | media (payload : String)
  | other (event : String)
deriving DecidableEq, Repr

/-- Messages the handler sends over `openAiWs`.  The queued first turn is
determined by its text, so `conversationItemCreate` carries just that. -/
inductive OpenAiOut where
  | sessionUpdate
  | conversationItemCreate (text : String)
  | responseCreate
  | responseCreateWithInstructions (instr : String)
  | audioAppend (payload : String)
  | functionCallOutput (output : String)
deriving DecidableEq, Repr

/-- Messages the handler sends back over the Twilio connection. -/
inductive TwilioOut where
  | media (streamSid payload : String)
deriving DecidableEq, Repr

/-- The closure variables of one `/media-stream` connection handler plus
the session entry it owns (`session.callerNumber`, `session.transcript`). -/
structure StreamState where
  firstMessage : String
  streamSid : String
  openAiWsReady : Bool
  queuedFirstMessage : Option String
  sessionCallerNumber : Option String
  sessionTranscript : String
deriving DecidableEq, Repr

/-- Initial closure state of a fresh connection (`firstMessage = ''`,
`streamSid = ''`, `openAiWsReady = false`, `queuedFirstMessage = null`,
fresh session entry). -/
def initialStreamState : StreamState :=
  { firstMessage := "", streamSid := "", openAiWsReady := false,
    queuedFirstMessage := none, sessionCallerNumber := none, sessionTranscript := "" }

/-- `sendFirstMessage()`: if a first message is queued and the OpenAI
socket is ready, send it followed by `response.create` and clear the
queue; otherwise do nothing. -/
def sendFirstMessage (st : StreamState) : StreamState × List OpenAiOut :=
  match st.queuedFirstMessage, st.openAiWsReady with
  | some text, true =>
      ({ st with queuedFirstMessage := none },
       [OpenAiOut.conversationItemCreate text, OpenAiOut.responseCreate])
  | _, _ => (st, [])

/-- `openAiWs.on('open')`: mark the socket ready, send the session
configuration, then try to flush the queued first message. -/
def handleOpen (st : StreamState) : StreamState × List OpenAiOut :=
  let st1 := { st with openAiWsReady := true }
  let r := sendFirstMessage st1
  (r.1, OpenAiOut.sessionUpdate :: r.2)

/-- The `start` branch of `connection.on('message')`: record the stream
id, default missing custom parameters (`|| 'Unknown'`,
`|| "Hello, how can I assist you?"`), queue the first message, and flush
it at once when the OpenAI socket is already ready. -/
def handleStart (st : StreamState) (streamSid _callSid : String)
    (customParameters : Option CustomParameters) : StreamState × List OpenAiOut :=
  let st1 := { st with streamSid := streamSid }
  let callerNumber := jsOr (customParameters.bind fun p => p.callerNumber) "Unknown"
  let st2 := { st1 with sessionCallerNumber := some callerNumber }
  let firstMessage := jsOr (customParameters.bind fun p => p.firstMessage)
    "Hello, how can I assist you?"
  let st3 := { st2 with firstMessage := firstMessage,
                        queuedFirstMessage := some firstMessage }
  if st3.openAiWsReady then sendFirstMessage st3 else (st3, [])

/-- The `media` branch of `connection.on('message')`: forward the payload
as `input_audio_buffer.append` when `openAiWs.readyState === OPEN`,
otherwise drop the chunk. -/
def handleMedia (readyState : ReadyState) (st : StreamState) (payload : String) :
    StreamState × List OpenAiOut :=
  if readyState = ReadyState.OPEN then
    (st, [OpenAiOut.audioAppend payload])
  else
    (st, [])

/-- `connection.on('message')` with its surrounding `try/catch`: `none`
models a frame `JSON.parse` throws on — the catch only logs, so the state
is unchanged and nothing is sent. -/
def handleTwilioMessage (readyState : ReadyState) (st : StreamState)
    (message : Option TwilioEvent) : StreamState × List OpenAiOut :=
  match message with
  | none => (st, [])
  | some (TwilioEvent.start sid csid params) => handleStart st sid csid params
  | some (TwilioEvent.media payload) => handleMedia readyState st payload
  | some (TwilioEvent.other _) => (st, [])

/-- The parsed `response.arguments` of a function call (one flat object;
each tool reads the fields it needs). -/
structure ToolArgs where
  doctor : String
  date : String
  reason : String
  subject : String
  content : String
deriving DecidableEq, Repr

/-- One element of `response.response.output[0].content`. -/
structure ContentPart where
  transcript : Option String
deriving DecidableEq, Repr

/-- One element of `response.response.output`. -/
structure OutputItem where
  content : List ContentPart
deriving DecidableEq, Repr

/-- A parsed frame from the OpenAI realtime socket, restricted to the
event types the handler branches on. -/
inductive OpenAiEvent where
  | responseAudioDelta (delta : Option String)
  | functionCallArgumentsDone (name : String) (arguments : Option ToolArgs)
  | responseDone (output : List OutputItem)
  | inputAudioTranscriptionCompleted (transcript : Option String)
  | other (type : String)
deriving DecidableEq, Repr

/-- JavaScript truthiness of an optional string. -/
def jsTruthy : Option String → Bool
  | some s => s != ""
  | none => false

/-- `response.response.output[0]?.content?.find(c => c.transcript)?.transcript
|| 'Agent message not found'`. -/
def agentMessageOf (output : List OutputItem) : String :=
  jsOr ((output.head?.bind fun item =>
          item.content.find? fun c => jsTruthy c.transcript).bind
        fun c => c.transcript)
    "Agent message not found"

/-- The `switch (functionName)` dispatch: runs the matching backend
action and yields `result` — `none` models the `undefined` result an
unknown tool name leaves behind. -/
def dispatchFunctionCall (s : ServerState) (functionName : String) (args : ToolArgs) :
    ServerState × Option String :=
  if functionName = "get_medical_history" then
    (s, some (getMedicalHistory s))
  else if functionName = "schedule_appointment" then
    let r := scheduleAppointment s args.doctor args.date args.reason
    (r.1, some r.2)
  else if functionName = "send_doctor_email" then
    let r := sendDoctorEmail s args.doctor args.subject args.content
    (r.1, some r.2)
  else
    (s, none)

/-- Net effect of one `openAiWs.on('message')` invocation: the updated
server and stream state, and the frames sent to each socket. -/
structure OpenAiStepResult where
  server : ServerState
  stream : StreamState
  toOpenAi : List OpenAiOut
  toTwilio : List TwilioOut

/-- Body of the OpenAI message handler's `try` block.  The `Except.error`
cases are the statements that can throw: `JSON.parse(response.arguments)`
on unparsable arguments, and `result.message` when the dispatch left
`result` undefined.  No database write or send precedes either throw. -/
def processOpenAiEvent (s : ServerState) (st : StreamState) (ev : OpenAiEvent) :
    Except String OpenAiStepResult :=
  match ev with
  | OpenAiEvent.responseAudioDelta delta =>
      match delta with
      | some d =>
          if d = "" then Except.ok (OpenAiStepResult.mk s st [] [])
          else Except.ok (OpenAiStepResult.mk s st [] [TwilioOut.media st.streamSid d])
      | none => Except.ok (OpenAiStepResult.mk s st [] [])
  | OpenAiEvent.functionCallArgumentsDone name arguments =>
      match arguments with
      | none => Except.error "SyntaxError: Unexpected token in JSON"
      | some args =>
          let r := dispatchFunctionCall s name args
          match r.2 with
          | none => Except.error "TypeError: Cannot read properties of undefined (reading message)"
          | some msg =>
              Except.ok (OpenAiStepResult.mk r.1 st
                [OpenAiOut.functionCallOutput msg,
                 OpenAiOut.responseCreateWithInstructions
                   ("Respond to the user based on this information: " ++ msg ++
                    ". Be professional and clear.")]
                [])
  | OpenAiEvent.responseDone output =>
      Except.ok (OpenAiStepResult.mk s
        { st with sessionTranscript :=
            st.sessionTranscript ++ ("Agent: " ++ agentMessageOf output ++ "\n") }
        [] [])
  | OpenAiEvent.inputAudioTranscriptionCompleted transcript =>
      match transcript with
      | some t =>
          if t = "" then Except.ok (OpenAiStepResult.mk s st [] [])
          else
            Except.ok (OpenAiStepResult.mk s
              { st with sessionTranscript :=
                  st.sessionTranscript ++ ("User: " ++ jsTrim t ++ "\n") }
              [] [])
      | none => Except.ok (OpenAiStepResult.mk s st [] [])
  | OpenAiEvent.other _ => Except.ok (OpenAiStepResult.mk s st [] [])

/-- `openAiWs.on('message')` with its surrounding `try/catch`: `none`
models a frame `JSON.parse` throws on, and any throw inside processing is
caught and only logged, leaving the state unchanged with nothing sent. -/
def handleOpenAiMessage (s : ServerState) (st : StreamState)
    (data : Option OpenAiEvent) : OpenAiStepResult :=
  match data with
  | none => OpenAiStepResult.mk s st [] []
  | some ev =>
      match processOpenAiEvent s st ev with
      | Except.ok r => r
      | Except.error _ => OpenAiStepResult.mk s st [] []

/-- `connection.on('close')`: reads `globalUser.id` with no null check —
with no bound profile this dereference throws a `TypeError` out of the
handler; otherwise the accumulated transcript is saved as one `calls`
row for that profile. -/
def handleClose (s : ServerState) (st : StreamState) : Except String ServerState :=
  match s.globalUser with
  | none => Except.error "TypeError: Cannot read properties of null (reading id)"
  | some u => Except.ok (saveTranscript s u.id st.sessionTranscript)

/-! ## Runners over event sequences -/

/-- Fold of `connection.on('message')` over a sequence of frames, each
paired with the OpenAI socket's ready state at arrival time. -/
def twilioRun (st : StreamState) (frames : List (ReadyState × Option TwilioEvent)) :
    StreamState × List OpenAiOut :=
  match frames with
  | [] => (st, [])
  | f :: rest =>
      let r1 := handleTwilioMessage f.1 st f.2
      let r2 := twilioRun r1.1 rest
      (r2.1, r1.2 ++ r2.2)

/-- Fold of `openAiWs.on('message')` over a sequence of frames. -/
def openAiRun (s : ServerState) (st : StreamState) (frames : List (Option OpenAiEvent)) :
    OpenAiStepResult :=
  match frames with
  | [] => OpenAiStepResult.mk s st [] []
  | f :: rest =>
      let r1 := handleOpenAiMessage s st f
      let r2 := openAiRun r1.server r1.stream rest
      OpenAiStepResult.mk r2.server r2.stream (r1.toOpenAi ++ r2.toOpenAi)
        (r1.toTwilio ++ r2.toTwilio)

/-- The two event sources that race for the first conversational turn:
the OpenAI socket's `open` signal and frames on the Twilio stream. -/
inductive RelayEvent where
  | aiOpen
  | twilio (readyState : ReadyState) (message : Option TwilioEvent)

/-- One step of the relay: dispatch the event to its handler. -/
def relayStep (st : StreamState) (e : RelayEvent) : StreamState × List OpenAiOut :=
  match e with
  | RelayEvent.aiOpen => handleOpen st
  | RelayEvent.twilio rs m => handleTwilioMessage rs st m

/-- Fold of the relay over an interleaving of the two event sources,
collecting everything sent to the OpenAI socket. -/
def relayRun (st : StreamState) (es : List RelayEvent) : StreamState × List OpenAiOut :=
  match es with
  | [] => (st, [])
  | e :: rest =>
      let r1 := relayStep st e
      let r2 := relayRun r1.1 rest
      (r2.1, r1.2 ++ r2.2)

/-- Recognizer for the first-turn send (`conversation.item.create`). -/
def isFirstTurnSend : OpenAiOut → Bool
  | OpenAiOut.conversationItemCreate _ => true
  | _ => false

/-- How many times the first conversational turn was sent. -/
def countFirstTurnSends (outs : List OpenAiOut) : Nat :=
  (outs.filter isFirstTurnSend).length

/-! ## Concrete fixtures for witnesses and counterexamples -/

/-- The all-zero attempt-counter object. -/
def emptyAttempts : String → Nat := fun _ => 0

/-- A server state with empty tables and no bound profile. -/
def emptyServerState : ServerState :=
  { users := [], medical_history := [], appointments := [], emails := [], calls := [],
    userIdAttempts := emptyAttempts, loginAttempts := emptyAttempts, globalUser := none }

/-- The sample patient of `populate-db.js`. -/
def john : User :=
  { id := 1, user_id := "12345678", password := "123456",
    phone_number := "+1234567890", name := "John Doe", date_of_birth := "1980-05-15",
    allergies := "Penicillin, Peanuts", conditions := "Hypertension, Asthma",
    medications := "Lisinopril 10mg, Albuterol inhaler", last_visit := "2024-03-15" }

/-- The second sample patient of `db.js`. -/
def jane : User :=
  { id := 2, user_id := "23456789", password := "234567",
    phone_number := "+1234567891", name := "Jane Smith", date_of_birth := "1992-10-12",
    allergies := "None", conditions := "None", medications := "None",
    last_visit := "2024-01-10" }

/-- A server state with the two sample patients registered. -/
def twoUserState : ServerState :=
  { emptyServerState with users := [john, jane] }

/-- Sample arguments for a `schedule_appointment` tool call. -/
def sampleToolArgs : ToolArgs :=
  { doctor := "Dr. Smith", date := "2024-12-01", reason := "checkup",
    subject := "", content := "" }

/-- A stream state holding a short accumulated transcript. -/
def sampleStreamState : StreamState :=
  { initialStreamState with sessionTranscript := "User: hi\n" }

/-! ## Claim theorems -/

/-- C1: for every identifier, `/process-password` increments that
identifier's credential-attempt counter on each attempt; while the
incremented count is below 3 a failed attempt answers with a retry
prompt, a failed attempt that brings the count to 3 answers with a
hangup and resets the counter to 0, and a successful verification at any
attempt resets the counter to 0 (connecting the stream); counters of
other identifiers are untouched. -/
theorem credential_attempt_counter
    (s : ServerState) (userId password : String) :
    (verifyUser s.users userId password = none →
      (s.loginAttempts userId + 1 < 3 →
        (processPassword s userId password).2 = TwimlResponse.retry userId ∧
        (processPassword s userId password).1.loginAttempts userId
          = s.loginAttempts userId + 1) ∧
      (s.loginAttempts userId + 1 ≥ 3 →
        (processPassword s userId password).2 = TwimlResponse.hangup ∧
        (processPassword s userId password).1.loginAttempts userId = 0)) ∧
    (∀ u, verifyUser s.users userId password = some u →
      (processPassword s userId password).2
        = TwimlResponse.connectStream
            ("Login successful. " ++ getLastCallInfo (processPassword s userId password).1)
            (getLastCallInfo (processPassword s userId password).1) u.phone_number ∧
      (processPassword s userId password).1.loginAttempts userId = 0) ∧
    (∀ id2, id2 ≠ userId →
      (processPassword s userId password).1.loginAttempts id2 = s.loginAttempts id2) := by
  refine ⟨fun hfail => ⟨fun hlt => ?_, fun hge => ?_⟩, fun u hsucc => ?_, fun id2 hne => ?_⟩
  · simp [processPassword, hfail, setCount, Nat.not_le.mpr hlt]
  · simp [processPassword, hfail, setCount, hge]
  · simp [processPassword, hsucc, setCount]
  · unfold processPassword
    dsimp only
    split
    · simp [setCount, hne]
    · split <;> simp [setCount, hne]

/-- C1 witness: a third consecutive wrong password for the sample
identifier produces the hangup response and a reset counter. -/
theorem credential_attempt_counter_witness :
    verifyUser twoUserState.users "12345678" "000000" = none ∧
    (processPassword { twoUserState with loginAttempts := fun _ => 2 }
        "12345678" "000000").2 = TwimlResponse.hangup ∧
    (processPassword { twoUserState with loginAttempts := fun _ => 2 }
        "12345678" "000000").1.loginAttempts "12345678" = 0 := by
  have h := credential_attempt_counter
    { twoUserState with loginAttempts := fun _ => 2 } "12345678" "000000"
  exact ⟨by decide, ((h.1 (by decide)).2 (by decide)).1, ((h.1 (by decide)).2 (by decide)).2⟩

/-- C2: the synthetic first conversational turn is sent to the OpenAI
socket exactly once whichever of the stream `start` event and the AI
`open` signal arrives first; before `open` arrives it is only buffered
(zero sends), and a further `open` does not resend it. -/
theorem first_turn_sent_exactly_once
    (sid csid : String) (params : Option CustomParameters) (rs : ReadyState) :
    countFirstTurnSends (relayRun initialStreamState
      [RelayEvent.twilio rs (some (TwilioEvent.start sid csid params))]).2 = 0 ∧
    countFirstTurnSends (relayRun initialStreamState
      [RelayEvent.twilio rs (some (TwilioEvent.start sid csid params)),
       RelayEvent.aiOpen]).2 = 1 ∧
    countFirstTurnSends (relayRun initialStreamState
      [RelayEvent.aiOpen,
       RelayEvent.twilio rs (some (TwilioEvent.start sid csid params))]).2 = 1 ∧
    countFirstTurnSends (relayRun initialStreamState
      [RelayEvent.twilio rs (some (TwilioEvent.start sid csid params)),
       RelayEvent.aiOpen, RelayEvent.aiOpen]).2 = 1 := by
  refine ⟨?_, ?_, ?_, ?_⟩ <;>
    simp [relayRun, relayStep, handleTwilioMessage, handleStart, handleOpen,
      sendFirstMessage, initialStreamState, countFirstTurnSends, isFirstTurnSend]

/-- C3: a `schedule_appointment` tool call with a bound profile appends
exactly one appointment record for that profile and sends back a
non-empty confirmation message; with no bound profile it inserts nothing
and the tool returns the "Patient not found in our records." message. -/
theorem schedule_appointment_dispatch
    (s : ServerState) (st : StreamState) (args : ToolArgs) :
    (∀ u, s.globalUser = some u →
      (handleOpenAiMessage s st (some (OpenAiEvent.functionCallArgumentsDone
          "schedule_appointment" (some args)))).server.appointments
        = s.appointments ++
            [Appointment.mk u.id args.doctor args.date args.reason "scheduled"] ∧
      (handleOpenAiMessage s st (some (OpenAiEvent.functionCallArgumentsDone
          "schedule_appointment" (some args)))).toOpenAi.head?
        = some (OpenAiOut.functionCallOutput
            (scheduleAppointment s args.doctor args.date args.reason).2) ∧
      (scheduleAppointment s args.doctor args.date args.reason).2 ≠ "") ∧
    (s.globalUser = none →
      (handleOpenAiMessage s st (some (OpenAiEvent.functionCallArgumentsDone
          "schedule_appointment" (some args)))).server.appointments = s.appointments ∧
      (scheduleAppointment s args.doctor args.date args.reason).2
        = "Patient not found in our records.") := by
  constructor
  · intro u hu
    refine ⟨?_, ?_, ?_⟩
    · simp [handleOpenAiMessage, processOpenAiEvent, dispatchFunctionCall,
        scheduleAppointment, hu]
    · simp [handleOpenAiMessage, processOpenAiEvent, dispatchFunctionCall,
        scheduleAppointment, hu]
    · simp only [scheduleAppointment, hu]
      intro hc
      have h2 := congrArg String.length hc
      have h3 : ("Appointment scheduled with ").length = 27 := by decide
      simp [String.length_append, h3] at h2
  · intro hu
    constructor
    · simp [handleOpenAiMessage, processOpenAiEvent, dispatchFunctionCall,
        scheduleAppointment, hu]
    · simp [scheduleAppointment, hu]

/-- C3 witness: with no bound profile, a `schedule_appointment` call on
the sample state leaves the appointments table unchanged. -/
theorem schedule_appointment_dispatch_witness :
    twoUserState.globalUser = none ∧
    (handleOpenAiMessage twoUserState initialStreamState
        (some (OpenAiEvent.functionCallArgumentsDone
          "schedule_appointment" (some sampleToolArgs)))).server.appointments
      = twoUserState.appointments := by
  have h := schedule_appointment_dispatch twoUserState initialStreamState sampleToolArgs
  exact ⟨rfl, (h.2 rfl).1⟩

/-- C4: a `media` frame arriving while the OpenAI socket is OPEN is
forwarded byte-for-byte as a single `input_audio_buffer.append` with the
state untouched; in any other socket state the chunk is dropped without
error and without being buffered. -/
theorem media_forwarding
    (st : StreamState) (payload : String) (rs : ReadyState) :
    handleTwilioMessage ReadyState.OPEN st (some (TwilioEvent.media payload))
      = (st, [OpenAiOut.audioAppend payload]) ∧
    (rs ≠ ReadyState.OPEN →
      handleTwilioMessage rs st (some (TwilioEvent.media payload)) = (st, [])) := by
  constructor
  · simp [handleTwilioMessage, handleMedia]
  · intro h
    simp [handleTwilioMessage, handleMedia, h]

/-- C4 witness: a media chunk arriving on a CLOSED OpenAI socket is
dropped. -/
theorem media_forwarding_witness :
    (ReadyState.CLOSED ≠ ReadyState.OPEN) ∧
    handleTwilioMessage ReadyState.CLOSED initialStreamState
        (some (TwilioEvent.media "AAAA")) = (initialStreamState, []) :=
  ⟨by decide,
   (media_forwarding initialStreamState "AAAA" ReadyState.CLOSED).2 (by decide)⟩

/-- C5 counterexample: a completed AI response with no transcribable
content segment (empty output) still appends the line
"Agent: Agent message not found\n", so the recorder does not append
"only when" a transcribable segment exists; and a completed
transcription event whose transcript is the empty string appends
nothing, so the "User:" append is not unconditional on arrival either. -/
theorem transcript_agent_line_counterexample :
    (handleOpenAiMessage twoUserState initialStreamState
        (some (OpenAiEvent.responseDone []))).stream.sessionTranscript
      = "Agent: Agent message not found\n" ∧
    (handleOpenAiMessage twoUserState sampleStreamState
        (some (OpenAiEvent.inputAudioTranscriptionCompleted (some "")))).stream.sessionTranscript
      = "User: hi\n" := by
  exact ⟨by decide, by decide⟩

/-- C5 amended: the recorder appends "Agent: <text>\n" on every completed
AI response, where <text> is the first transcribable content segment of
the first output item or the fallback "Agent message not found"; it
appends "User: <trimmed text>\n" exactly when a completed transcription
event with a non-empty transcript arrives (an empty one appends
nothing); lines follow event arrival order, and the one-user-utterance,
one-agent-utterance call yields exactly
"User: I need a refill\nAgent: I can help with that\n". -/
theorem transcript_recorder_amended
    (s : ServerState) (st : StreamState) (output : List OutputItem) (t : String) :
    ((handleOpenAiMessage s st (some (OpenAiEvent.responseDone output))).stream.sessionTranscript
      = st.sessionTranscript ++ ("Agent: " ++ agentMessageOf output ++ "\n")) ∧
    (t ≠ "" →
      (handleOpenAiMessage s st
          (some (OpenAiEvent.inputAudioTranscriptionCompleted (some t)))).stream.sessionTranscript
        = st.sessionTranscript ++ ("User: " ++ jsTrim t ++ "\n")) ∧
    ((handleOpenAiMessage s st
        (some (OpenAiEvent.inputAudioTranscriptionCompleted (some "")))).stream.sessionTranscript
      = st.sessionTranscript) ∧
    ((openAiRun twoUserState initialStreamState
        [some (OpenAiEvent.inputAudioTranscriptionCompleted (some "I need a refill")),
         some (OpenAiEvent.responseDone
           [OutputItem.mk [ContentPart.mk (some "I can help with that")]])]).stream.sessionTranscript
      = "User: I need a refill\nAgent: I can help with that\n") := by
  refine ⟨?_, fun ht => ?_, ?_, by decide⟩
  · simp [handleOpenAiMessage, processOpenAiEvent]
  · simp [handleOpenAiMessage, processOpenAiEvent, ht]
  · simp [handleOpenAiMessage, processOpenAiEvent]

/-- C5 witness: a non-empty transcription event appends its trimmed text
as a "User:" line. -/
theorem transcript_recorder_amended_witness :
    (" hi " ≠ "") ∧
    ((handleOpenAiMessage twoUserState initialStreamState
        (some (OpenAiEvent.inputAudioTranscriptionCompleted (some " hi ")))).stream.sessionTranscript
      = initialStreamState.sessionTranscript ++ ("User: " ++ jsTrim " hi " ++ "\n")) :=
  ⟨by decide,
   (transcript_recorder_amended twoUserState initialStreamState [] " hi ").2.1 (by decide)⟩

/-- C6: with no profile bound at teardown the close handler dereferences
the null `globalUser` and throws instead of skipping persistence
gracefully; with a bound profile it saves the accumulated transcript as
exactly one `calls` record for that profile. -/
theorem close_handler_null_profile_bug :
    handleClose emptyServerState sampleStreamState
      = Except.error "TypeError: Cannot read properties of null (reading id)" ∧
    handleClose { twoUserState with globalUser := some john } sampleStreamState
      = Except.ok { twoUserState with
                    globalUser := some john
                    calls := [CallRecord.mk 1 "User: hi\n"] } := by
  exact ⟨rfl, rfl⟩

/-- C7: a function-call-done event whose tool name is outside
{get_medical_history, schedule_appointment, send_doctor_email} leaves
`result` undefined and is a net no-op: the undefined dereference is
caught, so no backend state changes and no function-result or
response.create frame is sent. -/
theorem unknown_tool_is_noop
    (s : ServerState) (st : StreamState) (functionName : String) (args : ToolArgs)
    (h1 : functionName ≠ "get_medical_history")
    (h2 : functionName ≠ "schedule_appointment")
    (h3 : functionName ≠ "send_doctor_email") :
    dispatchFunctionCall s functionName args = (s, none) ∧
    handleOpenAiMessage s st
        (some (OpenAiEvent.functionCallArgumentsDone functionName (some args)))
      = OpenAiStepResult.mk s st [] [] := by
  have hd : dispatchFunctionCall s functionName args = (s, none) := by
    simp [dispatchFunctionCall, h1, h2, h3]
  refine ⟨hd, ?_⟩
  simp [handleOpenAiMessage, processOpenAiEvent, hd]

/-- C7 witness: the unknown tool name "foo" leaves the dispatch result
undefined and the server state unchanged. -/
theorem unknown_tool_is_noop_witness :
    ("foo" ≠ "get_medical_history") ∧
    dispatchFunctionCall twoUserState "foo" sampleToolArgs = (twoUserState, none) :=
  ⟨by decide,
   (unknown_tool_is_noop twoUserState initialStreamState "foo" sampleToolArgs
     (by decide) (by decide) (by decide)).1⟩

/-- C8 counterexample: `globalUser` is process-wide, so a successful
authentication in a second call replaces the profile bound while the
first call is still active, and the first call's subsequent
`schedule_appointment` writes the appointment under the second caller's
profile id (2) instead of the first caller's (1). -/
theorem profile_rebinding_counterexample :
    (processPassword twoUserState "12345678" "123456").1.globalUser = some john ∧
    (processPassword (processPassword twoUserState "12345678" "123456").1
        "23456789" "234567").1.globalUser = some jane ∧
    jane ≠ john ∧
    (dispatchFunctionCall
        (processPassword (processPassword twoUserState "12345678" "123456").1
          "23456789" "234567").1
        "schedule_appointment" sampleToolArgs).1.appointments
      = [Appointment.mk 2 "Dr. Smith" "2024-12-01" "checkup" "scheduled"] ∧
    john.id = 1 := by
  refine ⟨by decide, by decide, by decide, by decide, by decide⟩

/-- C8 amended: the profile binding lives in a single process-wide slot:
it is set only at successful verification, left unchanged by failed
attempts, and each successful verification in any call replaces it; tool
calls and the transcript flush use whatever profile is most recently
bound at their own execution time. -/
theorem profile_binding_amended
    (s : ServerState) (st : StreamState) (userId password : String) (u : User) :
    (verifyUser s.users userId password = some u →
      (processPassword s userId password).1.globalUser = some u) ∧
    (verifyUser s.users userId password = none →
      (processPassword s userId password).1.globalUser = s.globalUser) ∧
    (s.globalUser = some u → ∀ args : ToolArgs,
      (dispatchFunctionCall s "schedule_appointment" args).1.appointments
        = s.appointments ++
            [Appointment.mk u.id args.doctor args.date args.reason "scheduled"]) ∧
    (s.globalUser = some u →
      handleClose s st = Except.ok (saveTranscript s u.id st.sessionTranscript)) := by
  refine ⟨fun hs => ?_, fun hf => ?_, fun hb args => ?_, fun hb => ?_⟩
  · simp [processPassword, hs]
  · unfold processPassword
    dsimp only
    split
    · simp_all
    · split <;> simp
  · simp [dispatchFunctionCall, scheduleAppointment, hb]
  · simp [handleClose, hb]

/-- C8 amended witness: authenticating the sample identifier binds that
profile into the process-wide slot. -/
theorem profile_binding_amended_witness :
    (verifyUser twoUserState.users "12345678" "123456" = some john) ∧
    (processPassword twoUserState "12345678" "123456").1.globalUser = some john := by
  have h := profile_binding_amended twoUserState initialStreamState "12345678" "123456" john
  exact ⟨by decide, h.1 (by decide)⟩

/-- C9: a frame that fails to parse on either socket, or whose
processing raises mid-handler, is caught: the state is unchanged,
nothing is sent, and the run over the remaining frames proceeds exactly
as if the bad frame had not arrived. -/
theorem malformed_frame_resilience
    (rs : ReadyState) (s : ServerState) (st : StreamState)
    (frames : List (ReadyState × Option TwilioEvent))
    (oframes : List (Option OpenAiEvent)) (ev : OpenAiEvent) (e : String) :
    handleTwilioMessage rs st none = (st, []) ∧
    handleOpenAiMessage s st none = OpenAiStepResult.mk s st [] [] ∧
    (processOpenAiEvent s st ev = Except.error e →
      handleOpenAiMessage s st (some ev) = OpenAiStepResult.mk s st [] []) ∧
    twilioRun st ((rs, none) :: frames) = twilioRun st frames ∧
    openAiRun s st (none :: oframes) = openAiRun s st oframes := by
  refine ⟨rfl, rfl, fun he => ?_, ?_, ?_⟩
  · simp [handleOpenAiMessage, he]
  · simp [twilioRun, handleTwilioMessage]
  · simp [openAiRun, handleOpenAiMessage]

/-- C9 witness: the throwing unknown-tool frame is caught, leaving state
unchanged and nothing sent. -/
theorem malformed_frame_resilience_witness :
    (processOpenAiEvent twoUserState initialStreamState
        (OpenAiEvent.functionCallArgumentsDone "foo" (some sampleToolArgs))
      = Except.error "TypeError: Cannot read properties of undefined (reading message)") ∧
    handleOpenAiMessage twoUserState initialStreamState
        (some (OpenAiEvent.functionCallArgumentsDone "foo" (some sampleToolArgs)))
      = OpenAiStepResult.mk twoUserState initialStreamState [] [] :=
  ⟨rfl,
   (malformed_frame_resilience ReadyState.OPEN twoUserState initialStreamState [] []
     (OpenAiEvent.functionCallArgumentsDone "foo" (some sampleToolArgs))
     "TypeError: Cannot read properties of undefined (reading message)").2.2.1 rfl⟩

/-- C10: a `start` event with the caller number or the first-message
text omitted (or no custom parameters at all) is processed without
failure: the session's caller number defaults to "Unknown" and the
queued first turn's text defaults to "Hello, how can I assist you?". -/
theorem start_parameter_defaults
    (st : StreamState) (rs : ReadyState) (sid csid : String)
    (cp : Option CustomParameters) :
    ((cp.bind fun p => p.callerNumber) = none →
      (handleTwilioMessage rs st (some (TwilioEvent.start sid csid cp))).1.sessionCallerNumber
        = some "Unknown") ∧
    ((cp.bind fun p => p.firstMessage) = none →
      (handleTwilioMessage rs st (some (TwilioEvent.start sid csid cp))).1.firstMessage
        = "Hello, how can I assist you?" ∧
      (st.openAiWsReady = false →
        (handleTwilioMessage rs st (some (TwilioEvent.start sid csid cp))).1.queuedFirstMessage
          = some "Hello, how can I assist you?")) := by
  refine ⟨fun hc => ?_, fun hf => ⟨?_, fun hr => ?_⟩⟩
  · cases hready : st.openAiWsReady <;>
      simp [handleTwilioMessage, handleStart, sendFirstMessage, jsOr, hc, hready]
  · cases hready : st.openAiWsReady <;>
      simp [handleTwilioMessage, handleStart, sendFirstMessage, jsOr, hf, hready]
  · simp [handleTwilioMessage, handleStart, sendFirstMessage, jsOr, hf, hr]

/-- C10 witness: a start event with no custom parameters defaults the
caller number to "Unknown". -/
theorem start_parameter_defaults_witness :
    ((none : Option CustomParameters).bind (fun p => p.callerNumber) = none) ∧
    (handleTwilioMessage ReadyState.CONNECTING initialStreamState
        (some (TwilioEvent.start "SID1" "CA1" none))).1.sessionCallerNumber
      = some "Unknown" :=
  ⟨rfl,
   (start_parameter_defaults initialStreamState ReadyState.CONNECTING "SID1" "CA1" none).1 rfl⟩

end Backend2

